import Mathlib

/-!
Verification of the AI-powered travel planner's budget-constrained
generation core, shallowly embedded from the Python sources:

* `utils/budget_validator.py` — `BudgetValidator`
* `utils/cache.py`            — `SimpleCache`
* `models.py`                 — `TravelRequest` (pydantic validation)
* `services/llm_service.py`   — `LLMService.generate_itinerary` and
                                `LLMService.generate_with_budget_constraint`

Numbers are modelled by `ℚ` (Python floats, used here only for currency
arithmetic, are treated as exact rationals).  Python exceptions are
modelled by `Except`.  The external generative model is an oracle: the
text returned by the i-th API call of an orchestrator run is an
arbitrary parameter `env i`.
-/

namespace TravelPlanner

deriving instance DecidableEq for Except

/-! ## Python value / error model

A value sitting in a parsed-JSON dictionary, as far as `float(...)` is
concerned.  `float()` succeeds on numbers (and numeric strings, which we
model directly as `num`), raises `ValueError` on a non-numeric string,
and raises `TypeError` on values such as `None` or lists. -/

inductive PyVal where
  | num (q : ℚ)
  | str (s : String)
  | other
deriving DecidableEq, Repr

/-- Python exception kinds that the orchestrator's handlers distinguish. -/
inductive PyErr where
  | valueError (msg : String)
  | typeError (msg : String)
  | exception (msg : String)
deriving DecidableEq, Repr

def PyErr.msg : PyErr → String
  | .valueError m => m
  | .typeError m => m
  | .exception m => m

/-- `float(v)` for a JSON-dictionary value. -/
def pyFloat : PyVal → Except PyErr ℚ
  | .num q => .ok q
  | .str s => .error (.valueError ("could not convert string to float: " ++ s))
  | .other => .error (.typeError "float() argument must be a string or a real number")

/-- `float(d.get(key, 0))`: a missing key defaults to `0`. -/
def getFloat (v : Option PyVal) : Except PyErr ℚ :=
  pyFloat (v.getD (.num 0))

/-- Sum a list of cost fields, `float`-converting each (the Python
`for` loops raise at the first unconvertible item). -/
def sumCosts (l : List (Option PyVal)) : Except PyErr ℚ :=
  l.foldlM (fun acc v => do pure (acc + (← getFloat v))) 0

/-! ## Data model (`models.py` shapes, as raw parsed dictionaries)

`ItineraryData` is the parsed-JSON dictionary handed to
`BudgetValidator`.  Only the keys the validator reads are modelled;
each cost-carrying key is `Option PyVal` (`none` = key absent). -/

structure ActivityItem where
  estimated_cost : Option PyVal
deriving DecidableEq, Repr

structure DayPlan where
  activities : List ActivityItem
  food_recommendations : List ActivityItem
deriving DecidableEq, Repr

structure AccommodationItem where
  price_per_night : Option PyVal
deriving DecidableEq, Repr

structure ToDestItem where
  estimated_cost : Option PyVal
deriving DecidableEq, Repr

structure LocalTransportItem where
  estimated_daily_cost : Option PyVal
deriving DecidableEq, Repr

structure TransportationData where
  to_destination : List ToDestItem
  local_transport : List LocalTransportItem
deriving DecidableEq, Repr

/-- The document's own `budget_breakdown` dictionary, raw. -/
structure RawBreakdown where
  accommodation_total : Option PyVal
  transportation_total : Option PyVal
  activities_total : Option PyVal
  food_total : Option PyVal
  miscellaneous : Option PyVal
deriving DecidableEq, Repr

structure ItineraryData where
  duration : ℚ
  budget_breakdown : Option RawBreakdown
  itinerary : List DayPlan
  accommodation_suggestions : List AccommodationItem
  transportation : TransportationData
deriving DecidableEq, Repr

/-- A computed five-category breakdown (all fields converted floats). -/
structure Breakdown where
  accommodation_total : ℚ
  transportation_total : ℚ
  activities_total : ℚ
  food_total : ℚ
  miscellaneous : ℚ
deriving DecidableEq, Repr

/-- `sum(breakdown.values())`, in the dictionary's insertion order. -/
def Breakdown.total (b : Breakdown) : ℚ :=
  b.accommodation_total + b.transportation_total + b.activities_total +
    b.food_total + b.miscellaneous

/-! ## `BudgetValidator` (`utils/budget_validator.py`) -/

/-- `BudgetValidator._calculate_from_itinerary`. -/
def calcFromItinerary (d : ItineraryData) : Except PyErr Breakdown := do
  let duration := d.duration
  let activities ←
    sumCosts ((d.itinerary.flatMap (fun day => day.activities)).map (·.estimated_cost))
  let food ←
    sumCosts ((d.itinerary.flatMap (fun day => day.food_recommendations)).map
      (·.estimated_cost))
  let accommodation ←
    if d.accommodation_suggestions = [] then pure 0
    else do
      let s ← sumCosts (d.accommodation_suggestions.map (·.price_per_night))
      pure (s / (d.accommodation_suggestions.length : ℚ) * duration)
  let toDest ← sumCosts (d.transportation.to_destination.map (·.estimated_cost))
  let localTotal ← d.transportation.local_transport.foldlM
    (fun acc t => do pure (acc + (← getFloat t.estimated_daily_cost) * duration)) 0
  let transportation := toDest + localTotal
  let subtotal := accommodation + transportation + activities + food
  pure ⟨accommodation, transportation, activities, food, subtotal * (1 / 10)⟩

/-- `BudgetValidator._calculate_breakdown`: use the provided
`budget_breakdown` whenever the key is present (each field
`float`-converted, missing fields defaulting to 0); otherwise derive
from the itinerary. -/
def calcBreakdown (d : ItineraryData) : Except PyErr Breakdown :=
  match d.budget_breakdown with
  | some pb => do
      let a ← getFloat pb.accommodation_total
      let t ← getFloat pb.transportation_total
      let ac ← getFloat pb.activities_total
      let f ← getFloat pb.food_total
      let m ← getFloat pb.miscellaneous
      pure ⟨a, t, ac, f, m⟩
  | none => calcFromItinerary d

/-- The constructor default `tolerance_percentage = 5.0`. -/
def defaultTolerance : ℚ := 5

/-- `BudgetValidator.validate_budget`; returns
`(is_valid, total_cost, breakdown)`. -/
def validateBudget (tolerance : ℚ) (d : ItineraryData) (userBudget : ℚ) :
    Except PyErr (Bool × ℚ × Breakdown) := do
  let breakdown ← calcBreakdown d
  let totalCost := breakdown.total
  let maxAllowed := userBudget * (1 + tolerance / 100)
  pure (decide (totalCost ≤ maxAllowed), totalCost, breakdown)

/-- A document carrying an embedded numeric breakdown with the five
given category figures; handy for concrete instances. -/
def docWithBreakdown (a t ac f m : ℚ) : ItineraryData :=
  { duration := 1
    budget_breakdown := some
      ⟨some (.num a), some (.num t), some (.num ac), some (.num f), some (.num m)⟩
    itinerary := []
    accommodation_suggestions := []
    transportation := ⟨[], []⟩ }

/-- A document whose embedded breakdown has one field that `float()`
cannot convert (`transportation_total` holds a `None`-like value),
while its itemized itinerary alone would yield a perfectly good
derived breakdown. -/
def mixedDoc : ItineraryData :=
  { duration := 2
    budget_breakdown := some ⟨some (.num 10), some .other, none, none, none⟩
    itinerary := [⟨[⟨some (.num 50)⟩], []⟩]
    accommodation_suggestions := []
    transportation := ⟨[], []⟩ }

/-! ## `SimpleCache` (`utils/cache.py`)

The Python dict `_cache` is modelled as its list of entries in
insertion order, with pairwise-distinct keys.  Time is an abstract
`Nat` tick supplied to `set` (the value of `time.time()` /
`datetime.now()` at the call). -/

/-- `CacheEntry`: value, absolute expiry (`now + ttl`), creation time. -/
structure CEntry (α : Type) where
  key : String
  value : α
  expiresAt : Nat
  createdAt : Nat
deriving DecidableEq, Repr

/-- The sort key of `_evict_oldest` (`lambda k: self._cache[k].created_at`). -/
def byCreation {α : Type} (a b : CEntry α) : Prop := a.createdAt ≤ b.createdAt

instance {α : Type} : DecidableRel (@byCreation α) :=
  fun a b => Nat.decLe a.createdAt b.createdAt

instance {α : Type} : IsTotal (CEntry α) byCreation :=
  ⟨fun a b => Nat.le_total a.createdAt b.createdAt⟩

instance {α : Type} : IsTrans (CEntry α) byCreation :=
  ⟨fun _ _ _ => Nat.le_trans⟩

structure SimpleCache (α : Type) where
  cache : List (CEntry α)
  maxSize : Nat
deriving DecidableEq, Repr

/-- `SimpleCache.__init__`. -/
def emptyCache (α : Type) (maxSize : Nat) : SimpleCache α := ⟨[], maxSize⟩

/-- The keys `_evict_oldest` deletes: the first `max 1 (n / 10)` of the
keys sorted (stably) by creation time. -/
def evictedKeys {α : Type} (l : List (CEntry α)) : List String :=
  ((List.insertionSort byCreation l).take (max 1 (l.length / 10))).map (·.key)

/-- `SimpleCache._evict_oldest`: sort the keys by creation time
(Python's stable sort) and delete the oldest `max 1 (n / 10)`;
survivors keep their dict order. -/
def evictOldest {α : Type} (l : List (CEntry α)) : List (CEntry α) :=
  if l.isEmpty then l
  else l.filter (fun e => !(decide (e.key ∈ evictedKeys l)))

/-- Python `dict.__setitem__`: replace in place if the key exists
(keeping its position), else append. -/
def dictSet {α : Type} (l : List (CEntry α)) (e : CEntry α) : List (CEntry α) :=
  if l.any (fun x => x.key = e.key) then
    l.map (fun x => if x.key = e.key then e else x)
  else l ++ [e]

/-- `SimpleCache.set`: evict if `len(self._cache) >= self._max_size`,
then store the entry. -/
def cacheSet {α : Type} (c : SimpleCache α) (key : String) (value : α)
    (ttl now : Nat) : SimpleCache α :=
  let l := if c.maxSize ≤ c.cache.length then evictOldest c.cache else c.cache
  { c with cache := dictSet l ⟨key, value, now + ttl, now⟩ }

/-- A sequence of `set` operations `(key, value, ttl, now)`. -/
def runSets {α : Type} (c : SimpleCache α) :
    List (String × α × Nat × Nat) → SimpleCache α
  | [] => c
  | (k, v, ttl, now) :: ops => runSets (cacheSet c k v ttl now) ops

/-! ## The generation cache key (`llm_service.generate_itinerary`) -/

/-- Python `str.lower()`. -/
def pyLower (s : String) : String := ⟨s.data.map Char.toLower⟩

/-- Python string comparison (lexicographic by code point), as used by
`sorted`. -/
def charsLt : List Char → List Char → Bool
  | [], [] => false
  | [], _ :: _ => true
  | _ :: _, [] => false
  | a :: as, b :: bs => if a < b then true else if b < a then false else charsLt as bs

/-- Python `sorted` on strings: stable ascending sort. -/
def pySortStrings (l : List String) : List String :=
  List.insertionSort (fun a b => charsLt b.data a.data = false) l

/-- The f-string
`f"llm:{destination.lower()}:{duration_days}:{budget}:{','.join(sorted(interests))}:{bool(weather_context)}"`. -/
def cacheKey (destination : String) (durationDays budget : Int)
    (interests : List String) (weatherContext : String) : String :=
  "llm:" ++ pyLower destination ++ ":" ++ toString durationDays ++ ":" ++
    toString budget ++ ":" ++ String.intercalate "," (pySortStrings interests) ++
    ":" ++ (if weatherContext = "" then "False" else "True")

/-! ## `TravelRequest` validation (`models.py`, pydantic) -/

/-- Python `str.strip()`. -/
def pyStrip (s : String) : String :=
  ⟨((s.data.dropWhile Char.isWhitespace).reverse.dropWhile Char.isWhitespace).reverse⟩

/-- Python `str.upper()`. -/
def pyUpper (s : String) : String := ⟨s.data.map Char.toUpper⟩

/-- The raw JSON body of a request, before validation. -/
structure RawTravelRequest where
  destination : String
  duration_days : Int
  budget : Int
  currency : String
  interests : List String
  weather_aware : Bool
deriving DecidableEq, Repr

/-- A validated `TravelRequest`. -/
structure TravelRequest where
  destination : String
  duration_days : Int
  budget : Int
  currency : String
  interests : List String
  weather_aware : Bool
deriving DecidableEq, Repr

/-- `validate_destination`'s comma normalization
(`"Tokyo,Japan" -> "Tokyo, Japan"`). -/
def normalizeDestination (v : String) : String :=
  let destination := pyStrip v
  if destination.data.contains ',' then
    String.intercalate ", " ((destination.splitOn ",").map pyStrip)
  else destination

/-- Pydantic validation of `TravelRequest`: the declared field
constraints (`min_length` etc.) run first, then the `field_validator`s,
whose return values are not re-checked against the constraints. -/
def validateTravelRequest (r : RawTravelRequest) : Except String TravelRequest := do
  if r.destination.length < 2 ∨ 100 < r.destination.length then
    throw "destination length out of range"
  if ¬ (0 < r.duration_days ∧ r.duration_days ≤ 30) then
    throw "duration_days out of range"
  if ¬ (0 < r.budget) then
    throw "budget must be positive"
  if r.interests.length < 1 ∨ 10 < r.interests.length then
    throw "interests length out of range"
  let cur := pyUpper r.currency
  if ¬ (cur = "USD" ∨ cur = "INR") then
    throw "Currency must be one of USD, INR"
  if pyStrip r.destination = "" then
    throw "Destination cannot be empty"
  let destination := normalizeDestination r.destination
  if r.interests = [] then
    throw "At least one interest is required"
  let interests := (r.interests.filter (fun i => pyStrip i ≠ "")).map pyStrip
  pure ⟨destination, r.duration_days, r.budget, cur, interests, r.weather_aware⟩

/-! ## The generation orchestrator (`services/llm_service.py`)

`generate_itinerary` and `generate_with_budget_constraint` are modelled
for one fixed request and weather context, so the request-derived cache
key is one fixed slot: the generation cache is `Option ItineraryData`
(the 24-hour TTL cannot elapse between the writes and reads of a single
call, so expiry is not modelled here).
The external model is an oracle `env : Nat → ModelResponse`: the i-th
API call of a run yields `env i`; `parsed` is the (deterministic)
result `_parse_json_response` would produce on the stripped text.
A `ModelResponse.parsed` error string is the `ValueError` message of
the parser.  The pydantic construction `TravelResponse(**d)` at the
loop's return sites is a second oracle, `buildResp` (see
`finishStep`). -/

structure ModelResponse where
  text : String
  parsed : Except String ItineraryData
deriving DecidableEq, Repr

/-- Python `str.endswith`. -/
def pyEndsWith (s suf : String) : Bool := suf.data.isSuffixOf s.data

/-- Python `needle in hay` on strings. -/
def listContains (needle : List Char) : List Char → Bool
  | [] => needle.isEmpty
  | c :: t => needle.isPrefixOf (c :: t) || listContains needle t

def strContains (hay needle : String) : Bool := listContains needle.data hay.data

/-- What one `generate_itinerary` invocation produced: its
result/exception, the generation-cache slot afterwards, how many API
calls it made (0 on a cache hit, else 1), and whether
`_parse_json_response` was invoked. -/
structure GenOutcome where
  result : Except PyErr ItineraryData
  cache : Option ItineraryData
  apiCalls : Nat
  parserCalled : Bool
deriving DecidableEq, Repr

/-- The cache-miss body of `generate_itinerary` (everything inside the
`try`, after the cache lookup): strip, reject empty, reject truncated
output on the first attempt only, parse, and cache the parsed document
when `retry_count = 0`; any internal exception is re-raised as the
generic `Exception(f"Error generating itinerary: ...")`. -/
def genFresh (resp : ModelResponse) (retryCount : Nat)
    (cache : Option ItineraryData) : GenOutcome :=
  let t := pyStrip resp.text
  if t = "" then
    ⟨.error (.exception "Error generating itinerary: Empty response from API"),
      cache, 1, false⟩
  else if pyEndsWith t "\x7d" = false ∧ retryCount = 0 then
    ⟨.error (.exception
        ("Error generating itinerary: Response appears truncated " ++
          "(does not end with closing brace). " ++
          "This will be retried with adjusted parameters.")),
      cache, 1, false⟩
  else
    match resp.parsed with
    | .error e =>
        ⟨.error (.exception ("Error generating itinerary: " ++ e)), cache, 1, true⟩
    | .ok d =>
        if retryCount = 0 then ⟨.ok d, some d, 1, true⟩
        else ⟨.ok d, cache, 1, true⟩

/-- `LLMService.generate_itinerary` for one attempt: `retry_count = 0`
checks the cache first and returns the cached document on a hit with no
API call and no parsing. -/
def generate_itinerary (resp : ModelResponse) (retryCount : Nat)
    (cache : Option ItineraryData) : GenOutcome :=
  match retryCount, cache with
  | 0, some d => ⟨.ok d, some d, 0, false⟩
  | _, _ => genFresh resp retryCount cache

/-- The mutable state threaded through
`generate_with_budget_constraint`'s attempt loop: the cache slot, the
number of API calls made so far, the `budget_utilization_retry_used`
flag, and (pure instrumentation) how many optimization retries ran. -/
structure OrchState where
  cache : Option ItineraryData
  calls : Nat
  used : Bool
  optCount : Nat
deriving DecidableEq, Repr

/-- Outcome of one iteration of the attempt loop: `done` = `return` or
an uncaught `raise`; `next` = `continue` to the next attempt. -/
inductive StepOut where
  | done (r : Except PyErr (ItineraryData × String)) (s : OrchState)
  | next (s : OrchState)
deriving DecidableEq, Repr

/-- Whether the loop's `except` arms turn exception `e` on `attempt`
into a `continue`: the `except ValueError` arm retries only when the
message mentions JSON/parse (and attempts remain), then re-raises; the
generic `except Exception` arm retries whenever attempts remain. -/
def errRetries (e : PyErr) (attempt maxRetries : Nat) : Bool :=
  match e with
  | .valueError m =>
      (strContains m "JSON" || strContains (pyLower m) "parse") &&
        decide (attempt < maxRetries)
  | _ => decide (attempt < maxRetries)

/-- The tail of a loop iteration that reached a return site:
`TravelResponse(**itinerary_data)` followed by the status tag and
`return`.  Construction of the pydantic response model reads many keys
this embedding does not otherwise carry (destination, day plans, travel
tips, ...), so its outcome is an oracle `buildResp` supplied alongside
the model oracle `env`: `.ok ()` when construction succeeds, `.error m`
when it raises `ValidationError` with message `m`.  A pydantic
`ValidationError` IS a Python `ValueError`, so a failed construction is
dispatched by the loop's `except` arms like any other `ValueError`:
retried only when the message mentions JSON/parse and attempts remain,
otherwise re-raised. -/
def finishStep (buildResp : ItineraryData → Except String Unit)
    (doc : ItineraryData) (valid : Bool) (attempt maxRetries : Nat)
    (s4 : OrchState) : StepOut :=
  if valid then
    match buildResp doc with
    | .error m =>
        if errRetries (.valueError m) attempt maxRetries then .next s4
        else .done (.error (.valueError m)) s4
    | .ok _ => .done (.ok (doc, "within_budget")) s4
  else if attempt = maxRetries then
    match buildResp doc with
    | .error m =>
        if errRetries (.valueError m) attempt maxRetries then .next s4
        else .done (.error (.valueError m)) s4
    | .ok _ => .done (.ok (doc, "over_budget")) s4
  else .next s4

/-- One iteration of the `for attempt in range(max_retries + 1)` body of
`generate_with_budget_constraint`. -/
def attemptStep (env : Nat → ModelResponse)
    (buildResp : ItineraryData → Except String Unit) (budget : ℚ)
    (maxRetries attempt : Nat) (s : OrchState) : StepOut :=
  let g := generate_itinerary (env s.calls) attempt s.cache
  let s1 : OrchState := { s with cache := g.cache, calls := s.calls + g.apiCalls }
  match g.result with
  | .error e =>
      if errRetries e attempt maxRetries then .next s1 else .done (.error e) s1
  | .ok doc0 =>
    match validateBudget defaultTolerance doc0 budget with
    | .error e =>
        if errRetries e attempt maxRetries then .next s1 else .done (.error e) s1
    | .ok (valid0, total0, _) =>
      let afterOpt :=
        if total0 / budget * 100 < 75 ∧ s1.used = false ∧ attempt < maxRetries then
          -- the one-shot low-utilization optimization retry, with
          -- retry_count reset to 0.  If the generation call itself
          -- throws, `itinerary_data` was never reassigned, so the
          -- original document is kept; but if generation returned
          -- `doc2` and the RE-validation throws, the source has
          -- already reassigned `itinerary_data = doc2` while
          -- `is_valid` still holds the original attempt's value, so
          -- the NEW document is kept with the stale flag
          let g2 := generate_itinerary (env s1.calls) 0 s1.cache
          let s3 : OrchState :=
            { s1 with
                cache := g2.cache
                calls := s1.calls + g2.apiCalls
                used := true
                optCount := s1.optCount + 1 }
          match g2.result with
          | .error _ => (doc0, valid0, s3)
          | .ok doc2 =>
            match validateBudget defaultTolerance doc2 budget with
            | .error _ => (doc2, valid0, s3)
            | .ok (valid2, _, _) => (doc2, valid2, s3)
        else (doc0, valid0, s1)
      match afterOpt with
      | (doc, valid, s4) => finishStep buildResp doc valid attempt maxRetries s4

/-- The attempt loop; `fuel` is instantiated as the number of
iterations `range(max_retries + 1)` still has to run (the loop body
always returns or raises on the last attempt, so the fuel-exhausted
sentinel — the source's unreachable trailing
`raise Exception("Failed to generate valid itinerary")` — is never hit
from `generate_with_budget_constraint`). -/
def runAttempts (env : Nat → ModelResponse)
    (buildResp : ItineraryData → Except String Unit) (budget : ℚ)
    (maxRetries : Nat) :
    Nat → Nat → OrchState → Except PyErr (ItineraryData × String) × OrchState
  | 0, _, s => (.error (.exception "Failed to generate valid itinerary"), s)
  | fuel + 1, attempt, s =>
    match attemptStep env buildResp budget maxRetries attempt s with
    | .done r s' => (r, s')
    | .next s' => runAttempts env buildResp budget maxRetries fuel (attempt + 1) s'

/-- `LLMService.generate_with_budget_constraint` (fresh cache slot,
call counter at 0). -/
def generate_with_budget_constraint (env : Nat → ModelResponse)
    (buildResp : ItineraryData → Except String Unit) (budget : ℚ)
    (maxRetries : Nat) : Except PyErr (ItineraryData × String) × OrchState :=
  runAttempts env buildResp budget maxRetries (maxRetries + 1) 0 ⟨none, 0, false, 0⟩

@[simp] theorem ok_bind {ε α β : Type} (a : α) (f : α → Except ε β) :
    (Except.ok a >>= f) = f a := rfl

@[simp] theorem error_bind {ε α β : Type} (e : ε) (f : α → Except ε β) :
    ((Except.error e : Except ε α) >>= f) = .error e := rfl

@[simp] theorem getFloat_num (q : ℚ) : getFloat (some (.num q)) = .ok q := rfl

@[simp] theorem except_throw {ε α : Type} (e : ε) :
    (throw e : Except ε α) = .error e := rfl

theorem sumCosts_go_nums (qs : List ℚ) :
    ∀ acc : ℚ,
      (qs.map (fun q => some (PyVal.num q))).foldlM
        (fun acc v => do pure (acc + (← getFloat v))) acc = .ok (acc + qs.sum) := by
  induction qs with
  | nil => intro acc; simp [List.foldlM]; rfl
  | cons q qs ih =>
      intro acc
      simpa [List.foldlM, add_assoc] using ih (acc + q)

/-- `sumCosts` over a list of plain numbers is their sum. -/
theorem sumCosts_nums (qs : List ℚ) :
    sumCosts (qs.map (fun q => some (PyVal.num q))) = .ok qs.sum := by
  simpa using sumCosts_go_nums qs 0

/-- The local-transport fold over numeric daily costs. -/
theorem localFold_nums (dur : ℚ) :
    ∀ (items : List LocalTransportItem) (ls : List ℚ) (acc : ℚ),
      items.map (·.estimated_daily_cost) = ls.map (fun q => some (PyVal.num q)) →
      items.foldlM
        (fun acc t => do pure (acc + (← getFloat t.estimated_daily_cost) * dur)) acc
        = .ok (acc + ls.sum * dur) := by
  intro items
  induction items with
  | nil =>
      intro ls acc h
      cases ls with
      | nil => simp [List.foldlM]; rfl
      | cons l ls' => simp at h
  | cons i is ih =>
      intro ls acc h
      cases ls with
      | nil => simp at h
      | cons l ls' =>
          simp only [List.map_cons, List.cons.injEq] at h
          obtain ⟨hi, his⟩ := h
          simp only [List.foldlM, hi, getFloat_num, ok_bind, pure_bind]
          have := ih ls' (acc + l * dur) his
          rw [this]
          congr 1
          simp [List.sum_cons]
          ring

/-- `validateBudget` evaluated on a document with an embedded numeric
breakdown. -/
theorem validateBudget_docWithBreakdown (tol a t ac f m b : ℚ) :
    validateBudget tol (docWithBreakdown a t ac f m) b =
      .ok (decide (a + t + ac + f + m ≤ b * (1 + tol / 100)),
        a + t + ac + f + m, ⟨a, t, ac, f, m⟩) := by
  simp only [validateBudget, calcBreakdown, docWithBreakdown, getFloat_num,
    ok_bind, pure_bind, Breakdown.total]
  rfl

/-- Extracting the components of a successful `validateBudget`. -/
theorem validateBudget_ok {tol : ℚ} {d : ItineraryData} {b : ℚ} {valid : Bool}
    {total : ℚ} {bd : Breakdown}
    (h : validateBudget tol d b = .ok (valid, total, bd)) :
    calcBreakdown d = .ok bd ∧ total = bd.total ∧
      valid = decide (bd.total ≤ b * (1 + tol / 100)) := by
  unfold validateBudget at h
  cases hcb : calcBreakdown d with
  | error e =>
      rw [hcb] at h
      exact absurd h (by simp [error_bind])
  | ok bd' =>
      rw [hcb, ok_bind] at h
      have h' : (Except.ok (decide (bd'.total ≤ b * (1 + tol / 100)), bd'.total, bd') :
          Except PyErr (Bool × ℚ × Breakdown)) = .ok (valid, total, bd) := h
      simp only [Except.ok.injEq, Prod.mk.injEq] at h'
      obtain ⟨hv, ht, hbd⟩ := h'
      subst hbd
      exact ⟨rfl, ht.symm, hv.symm⟩

/-! ### Orchestrator unfolding lemmas -/

theorem generate_itinerary_hit (resp : ModelResponse) (d : ItineraryData) :
    generate_itinerary resp 0 (some d) = ⟨.ok d, some d, 0, false⟩ := rfl

theorem generate_itinerary_miss (resp : ModelResponse) :
    generate_itinerary resp 0 none = genFresh resp 0 none := rfl

theorem generate_itinerary_retry (resp : ModelResponse) (k : Nat)
    (cache : Option ItineraryData) :
    generate_itinerary resp (k + 1) cache = genFresh resp (k + 1) cache := by
  cases cache <;> rfl

theorem genFresh_parsed_ok {resp : ModelResponse} {d : ItineraryData}
    (ht : pyStrip resp.text ≠ "")
    (he : pyEndsWith (pyStrip resp.text) "\x7d" = true)
    (hp : resp.parsed = .ok d) (retryCount : Nat) (cache : Option ItineraryData) :
    genFresh resp retryCount cache =
      ⟨.ok d, if retryCount = 0 then some d else cache, 1, true⟩ := by
  unfold genFresh
  rw [if_neg ht, if_neg (by simp [he]), hp]
  dsimp only
  by_cases h0 : retryCount = 0
  · rw [if_pos h0, if_pos h0]
  · rw [if_neg h0, if_neg h0]

theorem genFresh_parse_error {resp : ModelResponse} {e : String}
    (ht : pyStrip resp.text ≠ "")
    (he : pyEndsWith (pyStrip resp.text) "\x7d" = true)
    (hp : resp.parsed = .error e) (retryCount : Nat) (cache : Option ItineraryData) :
    genFresh resp retryCount cache =
      ⟨.error (.exception ("Error generating itinerary: " ++ e)), cache, 1, true⟩ := by
  unfold genFresh
  rw [if_neg ht, if_neg (by simp [he]), hp]

theorem genFresh_truncated {resp : ModelResponse}
    (ht : pyStrip resp.text ≠ "")
    (he : pyEndsWith (pyStrip resp.text) "\x7d" = false)
    (cache : Option ItineraryData) :
    genFresh resp 0 cache =
      ⟨.error (.exception
          ("Error generating itinerary: Response appears truncated " ++
            "(does not end with closing brace). " ++
            "This will be retried with adjusted parameters.")),
        cache, 1, false⟩ := by
  unfold genFresh
  rw [if_neg ht, if_pos ⟨he, rfl⟩]

theorem finishStep_ok_within {buildResp : ItineraryData → Except String Unit}
    {doc : ItineraryData} (h : buildResp doc = .ok ())
    (attempt maxRetries : Nat) (s4 : OrchState) :
    finishStep buildResp doc true attempt maxRetries s4 =
      .done (.ok (doc, "within_budget")) s4 := by
  unfold finishStep
  rw [if_pos rfl, h]

theorem finishStep_ok_over {buildResp : ItineraryData → Except String Unit}
    {doc : ItineraryData} (h : buildResp doc = .ok ())
    (maxRetries : Nat) (s4 : OrchState) :
    finishStep buildResp doc false maxRetries maxRetries s4 =
      .done (.ok (doc, "over_budget")) s4 := by
  unfold finishStep
  rw [if_neg (by simp), if_pos rfl, h]

theorem finishStep_next {buildResp : ItineraryData → Except String Unit}
    {doc : ItineraryData} {attempt maxRetries : Nat}
    (h : attempt ≠ maxRetries) (s4 : OrchState) :
    finishStep buildResp doc false attempt maxRetries s4 = .next s4 := by
  unfold finishStep
  rw [if_neg (by simp), if_neg h]

theorem finishStep_err_over {buildResp : ItineraryData → Except String Unit}
    {doc : ItineraryData} {m : String} (h : buildResp doc = .error m)
    (maxRetries : Nat) (s4 : OrchState)
    (hnr : errRetries (.valueError m) maxRetries maxRetries = false) :
    finishStep buildResp doc false maxRetries maxRetries s4 =
      .done (.error (.valueError m)) s4 := by
  unfold finishStep
  rw [if_neg (by simp), if_pos rfl, h]
  dsimp only
  rw [hnr, if_neg (by simp)]

theorem attemptStep_no_opt (env : Nat → ModelResponse)
    (buildResp : ItineraryData → Except String Unit) (budget : ℚ)
    (maxRetries attempt : Nat) (s : OrchState) {doc : ItineraryData}
    {c' : Option ItineraryData} {n : Nat} {pc valid : Bool} {total : ℚ}
    {bd : Breakdown}
    (hg : generate_itinerary (env s.calls) attempt s.cache = ⟨.ok doc, c', n, pc⟩)
    (hv : validateBudget defaultTolerance doc budget = .ok (valid, total, bd))
    (hcond : ¬ (total / budget * 100 < 75 ∧ s.used = false ∧ attempt < maxRetries)) :
    attemptStep env buildResp budget maxRetries attempt s =
      finishStep buildResp doc valid attempt maxRetries
        ⟨c', s.calls + n, s.used, s.optCount⟩ := by
  unfold attemptStep
  rw [hg]
  dsimp only
  rw [hv]
  dsimp only
  rw [if_neg hcond]

theorem attemptStep_opt_ok (env : Nat → ModelResponse)
    (buildResp : ItineraryData → Except String Unit) (budget : ℚ)
    (maxRetries attempt : Nat) (s : OrchState) {doc0 : ItineraryData}
    {c' : Option ItineraryData} {n : Nat} {pc valid0 : Bool} {total0 : ℚ}
    {bd0 : Breakdown} {doc2 : ItineraryData} {c2 : Option ItineraryData} {n2 : Nat}
    {pc2 valid2 : Bool} {total2 : ℚ} {bd2 : Breakdown}
    (hg : generate_itinerary (env s.calls) attempt s.cache = ⟨.ok doc0, c', n, pc⟩)
    (hv : validateBudget defaultTolerance doc0 budget = .ok (valid0, total0, bd0))
    (hcond : total0 / budget * 100 < 75 ∧ s.used = false ∧ attempt < maxRetries)
    (hg2 : generate_itinerary (env (s.calls + n)) 0 c' = ⟨.ok doc2, c2, n2, pc2⟩)
    (hv2 : validateBudget defaultTolerance doc2 budget = .ok (valid2, total2, bd2)) :
    attemptStep env buildResp budget maxRetries attempt s =
      finishStep buildResp doc2 valid2 attempt maxRetries
        ⟨c2, s.calls + n + n2, true, s.optCount + 1⟩ := by
  unfold attemptStep
  rw [hg]
  dsimp only
  rw [hv]
  dsimp only
  rw [if_pos hcond, hg2]
  dsimp only
  rw [hv2]

theorem runAttempts_done (env : Nat → ModelResponse)
    (buildResp : ItineraryData → Except String Unit) (budget : ℚ)
    (maxRetries fuel : Nat) {attempt : Nat} {s s' : OrchState}
    {r : Except PyErr (ItineraryData × String)}
    (h : attemptStep env buildResp budget maxRetries attempt s = .done r s') :
    runAttempts env buildResp budget maxRetries (fuel + 1) attempt s = (r, s') := by
  unfold runAttempts
  rw [h]

theorem runAttempts_next (env : Nat → ModelResponse)
    (buildResp : ItineraryData → Except String Unit) (budget : ℚ)
    (maxRetries fuel : Nat) {attempt : Nat} {s s' : OrchState}
    (h : attemptStep env buildResp budget maxRetries attempt s = .next s') :
    runAttempts env buildResp budget maxRetries (fuel + 1) attempt s =
      runAttempts env buildResp budget maxRetries fuel (attempt + 1) s' := by
  conv_lhs => rw [runAttempts]
  rw [h]

theorem generate_itinerary_fresh (resp : ModelResponse) (rc : Nat)
    (cache : Option ItineraryData) (h : rc ≠ 0) :
    generate_itinerary resp rc cache = genFresh resp rc cache := by
  cases rc with
  | zero => exact absurd rfl h
  | succ k => exact generate_itinerary_retry resp k cache

/-- A document whose utilization is below 75% is automatically within
tolerance (75% < 105%), so its `is_valid` flag is `true`. -/
theorem valid_of_low_util {d : ItineraryData} {budget total : ℚ} {bd : Breakdown}
    {valid : Bool} (hb : 0 < budget)
    (hv : validateBudget defaultTolerance d budget = .ok (valid, total, bd))
    (hu : total / budget * 100 < 75) : valid = true := by
  obtain ⟨-, ht, hval⟩ := validateBudget_ok hv
  have h1 : total / budget < 75 / 100 := by linarith
  have h2 : total < 75 / 100 * budget := (div_lt_iff₀ hb).mp h1
  have h3 : total ≤ budget * (1 + defaultTolerance / 100) := by
    simp only [defaultTolerance]
    linarith
  rw [hval, ← ht]
  exact decide_eq_true h3

/-- A document rejected by the validator is necessarily at utilization
above 75%, so it can never trigger the low-utilization retry. -/
theorem not_low_util_of_invalid {d : ItineraryData} {budget total : ℚ}
    {bd : Breakdown} (hb : 0 < budget)
    (hv : validateBudget defaultTolerance d budget = .ok (false, total, bd)) :
    ¬ (total / budget * 100 < 75) := by
  obtain ⟨-, ht, hval⟩ := validateBudget_ok hv
  have hdec : ¬ (bd.total ≤ budget * (1 + defaultTolerance / 100)) := by
    intro hle
    rw [decide_eq_true hle] at hval
    exact Bool.false_ne_true hval
  push_neg at hdec
  intro hu
  have h1 : total / budget < 75 / 100 := by linarith
  have h2 : total < 75 / 100 * budget := (div_lt_iff₀ hb).mp h1
  rw [← ht] at hdec
  simp only [defaultTolerance] at hdec
  linarith

/-- C1: for every document and budget, `validate_budget` (tolerance
defaulting to 5) returns `is_valid = true` exactly when the computed
total cost is at most `budget * (1 + tolerance/100)`; concretely, at
budget 100 a total of 105.00 is valid and a total of 105.01 is not. -/
theorem c1_validator_tolerance :
    (∀ (d : ItineraryData) (b : ℚ) (valid : Bool) (total : ℚ) (bd : Breakdown),
        validateBudget defaultTolerance d b = .ok (valid, total, bd) →
        (valid = true ↔ total ≤ b * (1 + defaultTolerance / 100))) ∧
    validateBudget defaultTolerance (docWithBreakdown 105 0 0 0 0) 100 =
      .ok (true, 105, ⟨105, 0, 0, 0, 0⟩) ∧
    validateBudget defaultTolerance (docWithBreakdown (10501 / 100) 0 0 0 0) 100 =
      .ok (false, 10501 / 100, ⟨10501 / 100, 0, 0, 0, 0⟩) := by
  refine ⟨?_,
    by rw [validateBudget_docWithBreakdown]; norm_num [defaultTolerance],
    by rw [validateBudget_docWithBreakdown]; norm_num [defaultTolerance]⟩
  intro d b valid total bd h
  obtain ⟨-, ht, hv⟩ := validateBudget_ok h
  subst ht hv
  simp

/-- Witness for C1 at the boundary document. -/
theorem c1_validator_tolerance_witness :
    (true = true ↔ (105 : ℚ) ≤ 100 * (1 + defaultTolerance / 100)) :=
  c1_validator_tolerance.1 (docWithBreakdown 105 0 0 0 0) 100 true 105
    ⟨105, 0, 0, 0, 0⟩
    (by rw [validateBudget_docWithBreakdown]; norm_num [defaultTolerance])

/-! ## C7 -/

/-- C7 counterexample: `mixedDoc` has an embedded breakdown whose
`transportation_total` is not `float`-convertible.  The claim says the
breakdown is then derived from itemized costs (which here would give
`⟨0, 0, 50, 0, 5⟩`); the code instead raises the conversion error, so
validation fails rather than falling back. -/
theorem c7_breakdown_counterexample :
    mixedDoc.budget_breakdown.isSome = true ∧
    calcFromItinerary mixedDoc = .ok ⟨0, 0, 50, 0, 5⟩ ∧
    calcBreakdown mixedDoc =
      .error (.typeError "float() argument must be a string or a real number") ∧
    validateBudget defaultTolerance mixedDoc 1000 =
      .error (.typeError "float() argument must be a string or a real number") := by
  have hcb : calcBreakdown mixedDoc =
      .error (.typeError "float() argument must be a string or a real number") := by
    simp only [calcBreakdown, mixedDoc, getFloat_num, ok_bind]
    rfl
  refine ⟨rfl, ?_, hcb, ?_⟩
  · simp only [calcFromItinerary, mixedDoc, List.flatMap_cons, List.flatMap_nil,
      List.append_nil, List.map_cons, List.map_nil]
    rw [show ([some (PyVal.num 50)] : List (Option PyVal)) =
      [(50 : ℚ)].map (fun q => some (PyVal.num q)) by simp,
      sumCosts_nums]
    rw [show ([] : List (Option PyVal)) =
      ([] : List ℚ).map (fun q => some (PyVal.num q)) by simp, sumCosts_nums]
    simp only [ok_bind, pure_bind, List.foldlM, sumCosts, List.sum_cons,
      List.sum_nil]
    norm_num
    rfl
  · simp only [validateBudget, hcb, error_bind]

/-- C7 (amended): the embedded breakdown is used whenever the
`budget_breakdown` key is present and all five fields `float`-convert
(absent fields defaulting to 0); if the key is present but a field does
not convert, the whole computation raises (no fallback to itemized
derivation); only when the key is absent is the breakdown derived from
itemized costs (summed activity and food costs, averaged nightly rate ×
duration, to-destination transport plus daily local transport ×
duration, miscellaneous = 10% of the subtotal); and `totalCost` always
equals the sum of the five breakdown fields. -/
theorem c7_breakdown_amended :
    (∀ (d : ItineraryData) (pb : RawBreakdown) (qa qt qac qf qm : ℚ),
        d.budget_breakdown = some pb →
        getFloat pb.accommodation_total = .ok qa →
        getFloat pb.transportation_total = .ok qt →
        getFloat pb.activities_total = .ok qac →
        getFloat pb.food_total = .ok qf →
        getFloat pb.miscellaneous = .ok qm →
        calcBreakdown d = .ok ⟨qa, qt, qac, qf, qm⟩) ∧
    (∀ (d : ItineraryData) (pb : RawBreakdown),
        d.budget_breakdown = some pb →
        ((getFloat pb.accommodation_total).isOk = false ∨
         (getFloat pb.transportation_total).isOk = false ∨
         (getFloat pb.activities_total).isOk = false ∨
         (getFloat pb.food_total).isOk = false ∨
         (getFloat pb.miscellaneous).isOk = false) →
        (calcBreakdown d).isOk = false) ∧
    (∀ (d : ItineraryData) (as fs ps ts ls : List ℚ),
        d.budget_breakdown = none →
        (d.itinerary.flatMap (fun day => day.activities)).map (·.estimated_cost)
          = as.map (fun q => some (.num q)) →
        (d.itinerary.flatMap (fun day => day.food_recommendations)).map
            (·.estimated_cost)
          = fs.map (fun q => some (.num q)) →
        d.accommodation_suggestions.map (·.price_per_night)
          = ps.map (fun q => some (.num q)) →
        d.transportation.to_destination.map (·.estimated_cost)
          = ts.map (fun q => some (.num q)) →
        d.transportation.local_transport.map (·.estimated_daily_cost)
          = ls.map (fun q => some (.num q)) →
        calcBreakdown d =
          .ok (let acc := if ps = [] then 0 else ps.sum / (ps.length : ℚ) * d.duration
               let tr := ts.sum + ls.sum * d.duration
               ⟨acc, tr, as.sum, fs.sum, (acc + tr + as.sum + fs.sum) * (1 / 10)⟩)) ∧
    (∀ (tol : ℚ) (d : ItineraryData) (b : ℚ) (valid : Bool) (total : ℚ)
        (bd : Breakdown),
        validateBudget tol d b = .ok (valid, total, bd) → total = bd.total) := by
  refine ⟨?_, ?_, ?_, ?_⟩
  · intro d pb qa qt qac qf qm hpb ha ht hac hf hm
    simp [calcBreakdown, hpb, ha, ht, hac, hf, hm]
  · intro d pb hpb hbad
    simp only [calcBreakdown, hpb]
    rcases h1 : getFloat pb.accommodation_total with e | qa
    · simp [h1, Except.isOk, Except.toBool]
    rcases h2 : getFloat pb.transportation_total with e | qt
    · simp [h1, h2, Except.isOk, Except.toBool]
    rcases h3 : getFloat pb.activities_total with e | qac
    · simp [h1, h2, h3, Except.isOk, Except.toBool]
    rcases h4 : getFloat pb.food_total with e | qf
    · simp [h1, h2, h3, h4, Except.isOk, Except.toBool]
    rcases h5 : getFloat pb.miscellaneous with e | qm
    · simp [h1, h2, h3, h4, h5, Except.isOk, Except.toBool]
    rcases hbad with hb | hb | hb | hb | hb <;>
      simp [h1, h2, h3, h4, h5, Except.isOk, Except.toBool] at hb
  · intro d as fs ps ts ls hnone hact hfood haccs htod hlocal
    have hfold := localFold_nums d.duration d.transportation.local_transport ls 0 hlocal
    have hlen : (d.accommodation_suggestions.length : ℚ) = (ps.length : ℚ) := by
      have hl := congrArg List.length haccs
      simp only [List.length_map] at hl
      exact_mod_cast hl
    have hemp : (d.accommodation_suggestions = []) ↔ ps = [] := by
      constructor
      · intro h; rw [h] at haccs
        cases ps with
        | nil => rfl
        | cons p ps' => simp at haccs
      · intro h; rw [h] at haccs
        cases hA : d.accommodation_suggestions with
        | nil => rfl
        | cons a rest => rw [hA] at haccs; simp at haccs
    simp only [calcBreakdown, hnone, calcFromItinerary, hact, hfood, htod,
      sumCosts_nums, ok_bind]
    by_cases hps : ps = []
    · rw [if_pos (hemp.mpr hps), hps]
      simp only [pure_bind, ok_bind]
      rw [hfold]
      simp only [ok_bind, pure_bind, List.sum_nil]
      norm_num
      rfl
    · rw [if_neg (fun h => hps (hemp.mp h)), haccs, sumCosts_nums, ok_bind, hlen]
      simp only [pure_bind, ok_bind]
      rw [hfold]
      simp only [ok_bind, pure_bind, if_neg hps]
      norm_num
      rfl
  · intro tol d b valid total bd h
    exact (validateBudget_ok h).2.1

/-- Witness for C7 (amended), embedded-breakdown branch. -/
theorem c7_breakdown_amended_witness :
    calcBreakdown (docWithBreakdown 1 2 3 4 5) = .ok ⟨1, 2, 3, 4, 5⟩ :=
  c7_breakdown_amended.1 (docWithBreakdown 1 2 3 4 5) _ 1 2 3 4 5
    rfl rfl rfl rfl rfl rfl

/-! ## C8: cache capacity and eviction -/

theorem length_dictSet_le {α : Type} (l : List (CEntry α)) (e : CEntry α) :
    (dictSet l e).length ≤ l.length + 1 := by
  unfold dictSet
  split
  · simp
  · simp

theorem evictOldest_length_lt {α : Type} (l : List (CEntry α)) (h : l ≠ []) :
    (evictOldest l).length < l.length := by
  unfold evictOldest
  rw [if_neg (by simpa using h)]
  have hperm : List.Perm (List.insertionSort byCreation l) l := List.perm_insertionSort byCreation l
  cases hse : List.insertionSort byCreation l with
  | nil =>
      rw [hse] at hperm
      exact absurd hperm.symm.eq_nil h
  | cons h0 t =>
      have hmem0 : h0 ∈ List.insertionSort byCreation l := by
        rw [hse]; exact List.mem_cons_self h0 t
      have hmeml : h0 ∈ l := hperm.mem_iff.mp hmem0
      have htake : h0 ∈ (List.insertionSort byCreation l).take (max 1 (l.length / 10)) := by
        obtain ⟨k, hk⟩ := Nat.exists_eq_succ_of_ne_zero
          (Nat.pos_iff_ne_zero.mp (le_max_left 1 (l.length / 10)))
        rw [hse, hk, List.take_succ_cons]
        exact List.mem_cons_self h0 _
      have hkey : h0.key ∈ evictedKeys l := by
        unfold evictedKeys
        exact List.mem_map_of_mem (·.key) htake
      exact List.length_filter_lt_length_iff_exists.mpr ⟨h0, hmeml, by simp [hkey]⟩

theorem cacheSet_length_le {α : Type} (c : SimpleCache α) (k : String) (v : α)
    (ttl now : Nat) (hm : 1 ≤ c.maxSize) (hlen : c.cache.length ≤ c.maxSize) :
    (cacheSet c k v ttl now).cache.length ≤ c.maxSize := by
  unfold cacheSet
  dsimp only
  split
  next hfull =>
    have hne : c.cache ≠ [] := by
      intro h0
      rw [h0] at hfull
      simp at hfull
      omega
    have h1 := evictOldest_length_lt c.cache hne
    have h2 := length_dictSet_le (evictOldest c.cache) ⟨k, v, now + ttl, now⟩
    omega
  next =>
    have h2 := length_dictSet_le c.cache ⟨k, v, now + ttl, now⟩
    omega

theorem runSets_length_le {α : Type} (m : Nat) (hm : 1 ≤ m) :
    ∀ (ops : List (String × α × Nat × Nat)) (c : SimpleCache α),
      c.maxSize = m → c.cache.length ≤ m → (runSets c ops).cache.length ≤ m := by
  intro ops
  induction ops with
  | nil =>
      intro c h1 h2
      simpa [runSets] using h2
  | cons op ops ih =>
      intro c h1 h2
      obtain ⟨k, v, ttl, now⟩ := op
      have hstep := cacheSet_length_le c k v ttl now (h1 ▸ hm) (h1 ▸ h2)
      exact ih (cacheSet c k v ttl now) h1 (h1 ▸ hstep)

theorem key_injective {α : Type} :
    ∀ (l : List (CEntry α)), l.Pairwise (fun a b => a.key ≠ b.key) →
      ∀ x ∈ l, ∀ y ∈ l, x.key = y.key → x = y := by
  intro l
  induction l with
  | nil => intro _ x hx; cases hx
  | cons a t ih =>
      intro hnd x hx y hy hxy
      have hnd' := List.pairwise_cons.mp hnd
      rcases List.mem_cons.mp hx with rfl | hx' <;>
        rcases List.mem_cons.mp hy with rfl | hy'
      · rfl
      · exact absurd hxy (hnd'.1 y hy')
      · exact absurd hxy.symm (hnd'.1 x hx')
      · exact ih hnd'.2 x hx' y hy' hxy

/-- With pairwise-distinct keys, the survivors of `_evict_oldest` are
exactly the entries beyond the first `max 1 (n/10)` of the time-sorted
order: the evicted count is exact and every evicted entry is at least
as old as every survivor. -/
theorem evictOldest_spec {α : Type} (l : List (CEntry α))
    (hnd : l.Pairwise (fun a b => a.key ≠ b.key)) (hne : l ≠ []) :
    (evictOldest l).length = l.length - max 1 (l.length / 10) ∧
    (∀ e ∈ l, e ∉ evictOldest l → ∀ s ∈ evictOldest l, e.createdAt ≤ s.createdAt) := by
  have hperm : List.Perm (List.insertionSort byCreation l) l :=
    List.perm_insertionSort byCreation l
  have hsort : List.Sorted byCreation (List.insertionSort byCreation l) :=
    List.sorted_insertionSort byCreation l
  have hndsorted : (List.insertionSort byCreation l).Pairwise (fun a b => a.key ≠ b.key) :=
    ((hperm.pairwise_iff (fun h he => h he.symm)).mpr hnd)
  have hnodup : (List.insertionSort byCreation l).Nodup :=
    hndsorted.imp (fun h he => h (congrArg CEntry.key he))
  have happ := List.take_append_drop (max 1 (l.length / 10)) (List.insertionSort byCreation l)
  have hdisj : List.Disjoint
      ((List.insertionSort byCreation l).take (max 1 (l.length / 10)))
      ((List.insertionSort byCreation l).drop (max 1 (l.length / 10))) := by
    have := happ ▸ hnodup
    exact (List.nodup_append.mp this).2.2
  -- an entry's key is in `evictedKeys l` exactly when the entry is in the taken part
  have hkeymem : ∀ x ∈ List.insertionSort byCreation l,
      (x.key ∈ evictedKeys l ↔
        x ∈ (List.insertionSort byCreation l).take (max 1 (l.length / 10))) := by
    intro x hx
    constructor
    · intro hk
      obtain ⟨y, hy, hyx⟩ := List.mem_map.mp hk
      have hysorted : y ∈ List.insertionSort byCreation l :=
        List.take_subset _ _ hy
      have := key_injective _ hndsorted y hysorted x hx hyx
      exact this ▸ hy
    · intro hx'
      exact List.mem_map_of_mem (·.key) hx'
  have hfilterval : ∀ x ∈ List.insertionSort byCreation l,
      ((!(decide (x.key ∈ evictedKeys l))) = true ↔
        x ∈ (List.insertionSort byCreation l).drop (max 1 (l.length / 10))) := by
    intro x hx
    constructor
    · intro hp
      have hk : x.key ∉ evictedKeys l := by simpa using hp
      have hxt : x ∉ (List.insertionSort byCreation l).take (max 1 (l.length / 10)) :=
        fun hx' => hk ((hkeymem x hx).mpr hx')
      have hx2 : x ∈ (List.insertionSort byCreation l).take (max 1 (l.length / 10)) ++
          (List.insertionSort byCreation l).drop (max 1 (l.length / 10)) := by
        rw [happ]; exact hx
      rcases List.mem_append.mp hx2 with h | h
      · exact absurd h hxt
      · exact h
    · intro hxd
      have hxt : x ∉ (List.insertionSort byCreation l).take (max 1 (l.length / 10)) :=
        fun hx' => hdisj hx' hxd
      have hk : x.key ∉ evictedKeys l := fun hk' => hxt ((hkeymem x hx).mp hk')
      simpa using hk
  have hfeq : evictOldest l =
      l.filter (fun e => !(decide (e.key ∈ evictedKeys l))) := by
    unfold evictOldest
    rw [if_neg (by simpa using hne)]
  constructor
  · rw [hfeq]
    have hpermf := hperm.filter (fun e => !(decide (e.key ∈ evictedKeys l)))
    rw [← hpermf.length_eq]
    have hsplit : (List.insertionSort byCreation l).filter
        (fun e => !(decide (e.key ∈ evictedKeys l))) =
        (List.insertionSort byCreation l).drop (max 1 (l.length / 10)) := by
      nth_rewrite 1 [← happ]
      rw [List.filter_append]
      have h1 : ((List.insertionSort byCreation l).take (max 1 (l.length / 10))).filter
          (fun e => !(decide (e.key ∈ evictedKeys l))) = [] := by
        rw [List.filter_eq_nil_iff]
        intro a ha hp
        exact hdisj ha ((hfilterval a (List.take_subset _ _ ha)).mp (by simpa using hp))
      have h2 : ((List.insertionSort byCreation l).drop (max 1 (l.length / 10))).filter
          (fun e => !(decide (e.key ∈ evictedKeys l))) =
          (List.insertionSort byCreation l).drop (max 1 (l.length / 10)) := by
        rw [List.filter_eq_self]
        intro a ha
        exact (hfilterval a (List.drop_subset _ _ ha)).mpr ha
      rw [h1, h2, List.nil_append]
    rw [hsplit, List.length_drop, hperm.length_eq]
  · intro e hel hegone s hs
    rw [hfeq] at hegone hs
    have hesorted : e ∈ List.insertionSort byCreation l := hperm.mem_iff.mpr hel
    have hpe : ¬ ((!(decide (e.key ∈ evictedKeys l))) = true) := by
      intro hpe
      exact hegone (List.mem_filter.mpr ⟨hel, hpe⟩)
    have heke : e.key ∈ evictedKeys l := by simpa using hpe
    have hetake := (hkeymem e hesorted).mp heke
    obtain ⟨hsl, hps⟩ := List.mem_filter.mp hs
    have hssorted : s ∈ List.insertionSort byCreation l := hperm.mem_iff.mpr hsl
    have hsdrop : s ∈ (List.insertionSort byCreation l).drop (max 1 (l.length / 10)) :=
      (hfilterval s hssorted).mp (by simpa using hps)
    have hpair := happ ▸ hsort
    exact (List.pairwise_append.mp hpair).2.2 e hetake s hsdrop

/-- C8 counterexample: a cache constructed with `max_size = 0` exceeds
its capacity immediately after a single `set` (`_evict_oldest` returns
without evicting from an empty store, then the entry is inserted). -/
theorem c8_capacity_counterexample :
    (emptyCache Nat 0).maxSize = 0 ∧
    (cacheSet (emptyCache Nat 0) "k" 7 100 0).cache.length = 1 := by
  exact ⟨rfl, rfl⟩

/-- C8 (amended): for every cache with `max_size ≥ 1` and every
sequence of `set` operations from an empty store, the size never
exceeds `max_size` immediately after a `set`; when eviction runs on a
store with distinct keys it removes exactly the oldest
`max 1 (n / 10)` entries by creation time: the evicted count is exact
and every evicted entry is no newer than every survivor. -/
theorem c8_capacity_amended :
    (∀ (α : Type) (m : Nat) (ops : List (String × α × Nat × Nat)),
        1 ≤ m → (runSets (emptyCache α m) ops).cache.length ≤ m) ∧
    (∀ (α : Type) (l : List (CEntry α)),
        l.Pairwise (fun a b => a.key ≠ b.key) → l ≠ [] →
        (evictOldest l).length = l.length - max 1 (l.length / 10)) ∧
    (∀ (α : Type) (l : List (CEntry α)),
        l.Pairwise (fun a b => a.key ≠ b.key) → l ≠ [] →
        ∀ e ∈ l, e ∉ evictOldest l → ∀ s ∈ evictOldest l,
          e.createdAt ≤ s.createdAt) := by
  refine ⟨?_, ?_, ?_⟩
  · intro α m ops hm
    exact runSets_length_le m hm ops (emptyCache α m) rfl (by simp [emptyCache])
  · intro α l hnd hne
    exact (evictOldest_spec l hnd hne).1
  · intro α l hnd hne
    exact (evictOldest_spec l hnd hne).2

/-- Witness for C8 (amended) on a two-element run at capacity 1. -/
theorem c8_capacity_amended_witness :
    (runSets (emptyCache Nat 1) [("a", 0, 10, 0), ("b", 1, 10, 1)]).cache.length ≤ 1 :=
  c8_capacity_amended.1 Nat 1 [("a", 0, 10, 0), ("b", 1, 10, 1)] (le_refl 1)

/-! ## C5: the generation cache key -/

/-- C5 counterexample: the comma-join makes the key ambiguous.  The
semantically different interest sets `{"a,b"}` and `{"a","b"}` produce
the same key (so distinct requests collide), and the set-equal interest
lists `["food","food"]` and `["food"]` produce different keys (so
set-identical requests need not collide). -/
theorem c5_cache_key_counterexample :
    cacheKey "paris" 3 100 ["a,b"] "" = cacheKey "paris" 3 100 ["a", "b"] "" ∧
    "a" ∉ (["a,b"] : List String) ∧ "a" ∈ (["a", "b"] : List String) ∧
    cacheKey "paris" 3 100 ["food", "food"] "" ≠ cacheKey "paris" 3 100 ["food"] "" ∧
    (∀ s, s ∈ (["food", "food"] : List String) ↔ s ∈ (["food"] : List String)) := by
  refine ⟨by decide, by decide, by decide, by decide, ?_⟩
  intro s
  simp

/-- C5 (amended): the key is a pure function of (lowercased
destination, duration, budget, the comma-join of the sorted interest
list, weather-context presence), so requests agreeing on those collide;
but the correspondence is not injective — interests containing commas
can collide across different sets, and set-equal lists with different
multiplicities produce different keys. -/
theorem c5_cache_key_amended :
    ∀ (d1 d2 : String) (n1 n2 b1 b2 : Int) (i1 i2 : List String) (w1 w2 : String),
      pyLower d1 = pyLower d2 → n1 = n2 → b1 = b2 →
      pySortStrings i1 = pySortStrings i2 →
      ((w1 = "") ↔ (w2 = "")) →
      cacheKey d1 n1 b1 i1 w1 = cacheKey d2 n2 b2 i2 w2 := by
  intro d1 d2 n1 n2 b1 b2 i1 i2 w1 w2 hd hn hb hi hw
  unfold cacheKey
  rw [hd, hn, hb, hi]
  by_cases h1 : w1 = ""
  · rw [if_pos h1, if_pos (hw.mp h1)]
  · rw [if_neg h1, if_neg (fun h2 => h1 (hw.mpr h2))]

/-- Witness for C5 (amended). -/
theorem c5_cache_key_amended_witness :
    cacheKey "Paris" 3 100 ["b", "a"] "sunny" = cacheKey "paris" 3 100 ["a", "b"] "rain" :=
  c5_cache_key_amended "Paris" "paris" 3 3 100 100 ["b", "a"] ["a", "b"] "sunny" "rain"
    (by decide) rfl rfl (by decide) (by decide)

/-! ## C9: request validation -/

/-- Walking the validation pipeline of any accepted request. -/
theorem validateTravelRequest_ok {r : RawTravelRequest} {req : TravelRequest}
    (h : validateTravelRequest r = .ok req) :
    0 < r.duration_days ∧ r.duration_days ≤ 30 ∧ 0 < r.budget ∧
      1 ≤ r.interests.length ∧ r.interests.length ≤ 10 ∧
      req.duration_days = r.duration_days ∧ req.budget = r.budget ∧
      req.interests = (r.interests.filter (fun i => pyStrip i ≠ "")).map pyStrip := by
  unfold validateTravelRequest at h
  by_cases h1 : r.destination.length < 2 ∨ 100 < r.destination.length
  · rw [if_pos h1] at h
    simp only [except_throw, error_bind] at h
    exact absurd h (by simp)
  rw [if_neg h1] at h
  by_cases h2 : 0 < r.duration_days ∧ r.duration_days ≤ 30
  swap
  · rw [if_pos h2] at h
    simp only [except_throw, error_bind] at h
    exact absurd h (by simp)
  rw [if_neg (not_not_intro h2)] at h
  by_cases h3 : 0 < r.budget
  swap
  · rw [if_pos h3] at h
    simp only [except_throw, error_bind] at h
    exact absurd h (by simp)
  rw [if_neg (not_not_intro h3)] at h
  by_cases h4 : r.interests.length < 1 ∨ 10 < r.interests.length
  · rw [if_pos h4] at h
    simp only [except_throw, error_bind] at h
    exact absurd h (by simp)
  rw [if_neg h4] at h
  by_cases h5 : pyUpper r.currency = "USD" ∨ pyUpper r.currency = "INR"
  swap
  · rw [if_pos h5] at h
    simp only [except_throw, error_bind] at h
    exact absurd h (by simp)
  rw [if_neg (not_not_intro h5)] at h
  by_cases h6 : pyStrip r.destination = ""
  · rw [if_pos h6] at h
    simp only [except_throw, error_bind] at h
    exact absurd h (by simp)
  rw [if_neg h6] at h
  by_cases h7 : r.interests = []
  · rw [if_pos h7] at h
    simp only [except_throw, error_bind] at h
    exact absurd h (by simp)
  rw [if_neg h7] at h
  have h' : (Except.ok (⟨normalizeDestination r.destination, r.duration_days,
      r.budget, pyUpper r.currency,
      (r.interests.filter (fun i => pyStrip i ≠ "")).map pyStrip,
      r.weather_aware⟩ : TravelRequest) : Except String TravelRequest) = .ok req := h
  simp only [Except.ok.injEq] at h'
  subst h'
  push_neg at h4
  exact ⟨h2.1, h2.2, h3, by omega, by omega, rfl, rfl, rfl⟩

/-- C9: the bounds on duration, budget and the interest-count upper
bound hold, and no accepted interest is the empty string; but the code
accepts a request whose only interest is whitespace and then strips it
away, yielding an accepted request with an EMPTY interest list — the
`min_length=1` constraint is enforced before the validator filters, and
the filtered result is never re-checked, contradicting the validator's
own "At least one interest is required" guard. -/
theorem c9_request_validation_bug :
    validateTravelRequest ⟨"Paris", 3, 1000, "USD", ["   "], true⟩ =
      .ok ⟨"Paris", 3, 1000, "USD", [], true⟩ ∧
    (∀ (r : RawTravelRequest) (req : TravelRequest),
        validateTravelRequest r = .ok req →
        0 < req.duration_days ∧ req.duration_days ≤ 30 ∧ 0 < req.budget ∧
          req.interests.length ≤ 10 ∧ ∀ i ∈ req.interests, i ≠ "") := by
  constructor
  · decide
  · intro r req h
    obtain ⟨hd1, hd2, hb, hil, hiu, hreqd, hreqb, hreqi⟩ := validateTravelRequest_ok h
    refine ⟨hreqd ▸ hd1, hreqd ▸ hd2, hreqb ▸ hb, ?_, ?_⟩
    · rw [hreqi, List.length_map]
      have := List.length_filter_le (fun i => decide (pyStrip i ≠ "")) r.interests
      omega
    · intro i hi
      rw [hreqi] at hi
      obtain ⟨j, hj, rfl⟩ := List.mem_map.mp hi
      obtain ⟨hjl, hjne⟩ := List.mem_filter.mp hj
      simpa using hjne

/-- Witness for C9's accepted-request bounds at the whitespace-interest
request. -/
theorem c9_request_validation_bug_witness :
    0 < (3 : Int) ∧ (3 : Int) ≤ 30 ∧ 0 < (1000 : Int) ∧
      ([] : List String).length ≤ 10 ∧ ∀ i ∈ ([] : List String), i ≠ "" :=
  c9_request_validation_bug.2 ⟨"Paris", 3, 1000, "USD", ["   "], true⟩
    ⟨"Paris", 3, 1000, "USD", [], true⟩ c9_request_validation_bug.1

/-! ## C6: truncation fail-fast -/

/-- C6 counterexample: the code tests the STRIPPED text, not the raw
response.  The raw response here ends in a newline — it "does not end
with a closing brace" — yet on attempt 0 the parser IS invoked (and the
attempt succeeds), because stripping removes the newline first. -/
theorem c6_truncation_counterexample :
    pyEndsWith "\x7b\x7d\n" "\x7d" = false ∧
    generate_itinerary ⟨"\x7b\x7d\n", .ok (docWithBreakdown 1 0 0 0 0)⟩ 0 none =
      ⟨.ok (docWithBreakdown 1 0 0 0 0), some (docWithBreakdown 1 0 0 0 0), 1, true⟩ := by
  constructor
  · decide
  · rw [generate_itinerary_miss,
      genFresh_parsed_ok (by decide) (by decide) rfl 0 none]
    rfl

/-- C6 (amended): for every response whose STRIPPED text is nonempty
and does not end with a closing brace, attempt 0 (on a cache miss)
fails without invoking the parser, while on every attempt numbered 1 or
higher the same response is passed to the parser. -/
theorem c6_truncation_amended :
    ∀ (resp : ModelResponse),
      pyStrip resp.text ≠ "" →
      pyEndsWith (pyStrip resp.text) "\x7d" = false →
      (generate_itinerary resp 0 none).result.isOk = false ∧
      (generate_itinerary resp 0 none).parserCalled = false ∧
      (∀ (rc : Nat) (cache : Option ItineraryData), 1 ≤ rc →
        (generate_itinerary resp rc cache).parserCalled = true) := by
  intro resp ht he
  have h0 : generate_itinerary resp 0 none = genFresh resp 0 none :=
    generate_itinerary_miss resp
  have hfz := genFresh_truncated ht he none
  refine ⟨by rw [h0, hfz]; rfl, by rw [h0, hfz], ?_⟩

  intro rc cache hrc
  obtain ⟨k, rfl⟩ : ∃ k, rc = k + 1 := ⟨rc - 1, by omega⟩
  rw [generate_itinerary_retry]
  unfold genFresh
  rw [if_neg ht, if_neg (by simp)]
  cases hp : resp.parsed with
  | error e => rfl
  | ok d =>
      dsimp only
      rw [if_neg (Nat.succ_ne_zero k)]

/-- Witness for C6 (amended) on a short non-JSON response. -/
theorem c6_truncation_amended_witness :
    (generate_itinerary ⟨"oops", .error "no json"⟩ 0 none).result.isOk = false ∧
    (generate_itinerary ⟨"oops", .error "no json"⟩ 0 none).parserCalled = false ∧
    (∀ (rc : Nat) (cache : Option ItineraryData), 1 ≤ rc →
      (generate_itinerary ⟨"oops", .error "no json"⟩ rc cache).parserCalled = true) :=
  c6_truncation_amended ⟨"oops", .error "no json"⟩ (by decide) (by decide)

/-! ## C4: what gets cached -/

/-- C4 counterexample: with `maxRetries = 0`, a successful response
construction, and a single parseable response whose document costs 1200
against budget 1000, the run ends "over_budget" — the document FAILED
budget validation — yet the final cache slot holds exactly that
document: `generate_itinerary` caches right after parsing (attempt 0),
before any budget validation. -/
theorem c4_caching_counterexample :
    validateBudget defaultTolerance (docWithBreakdown 1200 0 0 0 0) 1000 =
      .ok (false, 1200, ⟨1200, 0, 0, 0, 0⟩) ∧
    generate_with_budget_constraint
        (fun _ => ⟨"ok\x7d", .ok (docWithBreakdown 1200 0 0 0 0)⟩)
        (fun _ => .ok ()) 1000 0 =
      (.ok (docWithBreakdown 1200 0 0 0 0, "over_budget"),
        ⟨some (docWithBreakdown 1200 0 0 0 0), 1, false, 0⟩) := by
  have hval : validateBudget defaultTolerance (docWithBreakdown 1200 0 0 0 0) 1000 =
      .ok (false, 1200, ⟨1200, 0, 0, 0, 0⟩) := by
    rw [validateBudget_docWithBreakdown]
    norm_num [defaultTolerance]
  refine ⟨hval, ?_⟩
  have hgen : generate_itinerary
      ((fun _ => (⟨"ok\x7d", .ok (docWithBreakdown 1200 0 0 0 0)⟩ : ModelResponse))
        ((⟨none, 0, false, 0⟩ : OrchState).calls))
      0 ((⟨none, 0, false, 0⟩ : OrchState).cache) =
      ⟨.ok (docWithBreakdown 1200 0 0 0 0), some (docWithBreakdown 1200 0 0 0 0),
        1, true⟩ := by
    rw [generate_itinerary_miss,
      genFresh_parsed_ok (by decide) (by decide) rfl 0 none]
    rfl
  have hstep := attemptStep_no_opt
    (fun _ => (⟨"ok\x7d", .ok (docWithBreakdown 1200 0 0 0 0)⟩ : ModelResponse))
    (fun _ => .ok ()) 1000 0 0 ⟨none, 0, false, 0⟩ hgen hval (by norm_num)
  have hstep2 : attemptStep
      (fun _ => (⟨"ok\x7d", .ok (docWithBreakdown 1200 0 0 0 0)⟩ : ModelResponse))
      (fun _ => .ok ()) 1000 0 0 ⟨none, 0, false, 0⟩ =
      .done (.ok (docWithBreakdown 1200 0 0 0 0, "over_budget"))
        ⟨some (docWithBreakdown 1200 0 0 0 0), 1, false, 0⟩ := by
    rw [hstep]
    exact finishStep_ok_over rfl 0 _
  unfold generate_with_budget_constraint
  rw [runAttempts_done
    (fun _ => (⟨"ok\x7d", .ok (docWithBreakdown 1200 0 0 0 0)⟩ : ModelResponse))
    (fun _ => .ok ()) 1000 0 0 hstep2]

/-- C4 (amended): a parsed document is written to the generation cache
exactly when the generating invocation has `retry_count = 0` and missed
the cache — BEFORE and regardless of budget validation; invocations
with `retry_count ≥ 1` never touch the cache, and a cache hit rewrites
the slot with the same document. -/
theorem c4_caching_amended :
    (∀ (resp : ModelResponse) (rc : Nat) (cache : Option ItineraryData), 1 ≤ rc →
      (generate_itinerary resp rc cache).cache = cache) ∧
    (∀ (resp : ModelResponse) (d : ItineraryData),
      generate_itinerary resp 0 (some d) = ⟨.ok d, some d, 0, false⟩) ∧
    (∀ resp : ModelResponse,
      ((generate_itinerary resp 0 none).cache = none ∧
        (generate_itinerary resp 0 none).result.isOk = false) ∨
      (∃ d, resp.parsed = .ok d ∧
        generate_itinerary resp 0 none = ⟨.ok d, some d, 1, true⟩)) := by
  refine ⟨?_, fun resp d => generate_itinerary_hit resp d, ?_⟩
  · intro resp rc cache hrc
    obtain ⟨k, rfl⟩ : ∃ k, rc = k + 1 := ⟨rc - 1, by omega⟩
    rw [generate_itinerary_retry]
    unfold genFresh
    by_cases h1 : pyStrip resp.text = ""
    · rw [if_pos h1]
    rw [if_neg h1, if_neg (by simp)]
    cases hp : resp.parsed with
    | error e => rfl
    | ok d =>
        dsimp only
        rw [if_neg (Nat.succ_ne_zero k)]
  · intro resp
    rw [generate_itinerary_miss]
    unfold genFresh
    by_cases h1 : pyStrip resp.text = ""
    · rw [if_pos h1]
      exact Or.inl ⟨rfl, rfl⟩
    rw [if_neg h1]
    by_cases h2 : pyEndsWith (pyStrip resp.text) "\x7d" = false ∧ (0 : Nat) = 0
    · rw [if_pos h2]
      exact Or.inl ⟨rfl, rfl⟩
    rw [if_neg h2]
    cases hp : resp.parsed with
    | error e => exact Or.inl ⟨rfl, rfl⟩
    | ok d =>
        refine Or.inr ⟨d, rfl, ?_⟩
        dsimp only
        rw [if_pos rfl]

/-- Witness for C4 (amended): a retry invocation leaves the cache
unchanged. -/
theorem c4_caching_amended_witness :
    (generate_itinerary ⟨"oops2", .error "no json"⟩ 1 none).cache = none :=
  c4_caching_amended.1 ⟨"oops2", .error "no json"⟩ 1 none (le_refl 1)

/-! ## C10: the optimization retry is answered from the cache -/

/-- C10: (i) a `retry_count = 0` invocation with a populated cache slot
returns the cached document with no model call and no parsing; (ii)
when attempt 0 succeeds (writing its parsed document `d` to the cache)
with utilization below 75% and retries remain, the low-utilization
optimization retry (which resets `retry_count` to 0 under the unchanged
request key) is answered by that cache entry — the loop step makes
exactly one API call in total and hands the SAME document `d`, flagged
valid, to the response construction; (iii) hence whenever
`TravelResponse(**d)` succeeds, the whole call ends `within_budget`
with the original document, one API call made, and the cache still
holding `d`. -/
theorem c10_opt_cache_hit :
    (∀ (resp : ModelResponse) (d : ItineraryData),
        generate_itinerary resp 0 (some d) = ⟨.ok d, some d, 0, false⟩) ∧
    (∀ (env : Nat → ModelResponse) (buildResp : ItineraryData → Except String Unit)
        (budget : ℚ) (maxRetries : Nat)
        (d : ItineraryData) (valid : Bool) (total : ℚ) (bd : Breakdown),
        0 < budget → 1 ≤ maxRetries →
        pyStrip (env 0).text ≠ "" →
        pyEndsWith (pyStrip (env 0).text) "\x7d" = true →
        (env 0).parsed = .ok d →
        validateBudget defaultTolerance d budget = .ok (valid, total, bd) →
        total / budget * 100 < 75 →
        (attemptStep env buildResp budget maxRetries 0 ⟨none, 0, false, 0⟩ =
          finishStep buildResp d true 0 maxRetries ⟨some d, 1, true, 1⟩) ∧
        (buildResp d = .ok () →
          generate_with_budget_constraint env buildResp budget maxRetries =
            (.ok (d, "within_budget"), ⟨some d, 1, true, 1⟩))) := by
  refine ⟨fun resp d => generate_itinerary_hit resp d, ?_⟩
  intro env buildResp budget maxRetries d valid total bd hb hmr ht he hp hv hu
  have hvalid := valid_of_low_util hb hv hu
  subst hvalid
  obtain ⟨k, rfl⟩ : ∃ k, maxRetries = k + 1 := ⟨maxRetries - 1, by omega⟩
  have hg : generate_itinerary (env (⟨none, 0, false, 0⟩ : OrchState).calls) 0
      (⟨none, 0, false, 0⟩ : OrchState).cache = ⟨.ok d, some d, 1, true⟩ := by
    rw [generate_itinerary_miss, genFresh_parsed_ok ht he hp 0 none]
    rfl
  have hg2 : generate_itinerary (env ((⟨none, 0, false, 0⟩ : OrchState).calls + 1)) 0
      (some d) = ⟨.ok d, some d, 0, false⟩ := generate_itinerary_hit _ d
  have hstep := attemptStep_opt_ok env buildResp budget (k + 1) 0 ⟨none, 0, false, 0⟩
    hg hv ⟨hu, rfl, by omega⟩ hg2 hv
  refine ⟨hstep, fun hbr => ?_⟩
  have hstep2 : attemptStep env buildResp budget (k + 1) 0 ⟨none, 0, false, 0⟩ =
      .done (.ok (d, "within_budget")) ⟨some d, 1, true, 1⟩ := by
    rw [hstep]
    exact finishStep_ok_within hbr 0 (k + 1) _
  unfold generate_with_budget_constraint
  exact runAttempts_done env buildResp budget (k + 1) (k + 1) hstep2

/-- Witness for C10 at a 700-cost document against budget 1000, with a
succeeding response construction. -/
theorem c10_opt_cache_hit_witness :
    generate_with_budget_constraint
        (fun _ => ⟨"ok\x7d", .ok (docWithBreakdown 700 0 0 0 0)⟩)
        (fun _ => .ok ()) 1000 1 =
      (.ok (docWithBreakdown 700 0 0 0 0, "within_budget"),
        ⟨some (docWithBreakdown 700 0 0 0 0), 1, true, 1⟩) :=
  (c10_opt_cache_hit.2 (fun _ => ⟨"ok\x7d", .ok (docWithBreakdown 700 0 0 0 0)⟩)
    (fun _ => .ok ()) 1000 1 (docWithBreakdown 700 0 0 0 0) true 700 ⟨700, 0, 0, 0, 0⟩
    (by norm_num) (le_refl 1) (by decide) (by decide) rfl
    (by rw [validateBudget_docWithBreakdown]; norm_num [defaultTolerance])
    (by norm_num)).2 rfl

/-! ## C3: the one-shot optimization retry -/

/-- The loop part of C2, from any attempt ≥ 1 with the call counter in
lockstep: every remaining attempt parses, fails validation, skips the
optimization branch (over-budget means utilization > 105%), and the
final attempt — provided its `TravelResponse` construction succeeds —
returns the last document tagged over_budget. -/
theorem c2_loop (env : Nat → ModelResponse)
    (buildResp : ItineraryData → Except String Unit) (budget : ℚ) (maxRetries : Nat)
    (docs : Nat → ItineraryData) (totals : Nat → ℚ) (bds : Nat → Breakdown)
    (hb : 0 < budget)
    (ht : ∀ i, pyStrip (env i).text ≠ "")
    (he : ∀ i, pyEndsWith (pyStrip (env i).text) "\x7d" = true)
    (hp : ∀ i, (env i).parsed = .ok (docs i))
    (hv : ∀ i, validateBudget defaultTolerance (docs i) budget =
      .ok (false, totals i, bds i))
    (hbr : buildResp (docs maxRetries) = .ok ()) :
    ∀ (fuel attempt : Nat) (s : OrchState), 1 ≤ fuel → 1 ≤ attempt →
      attempt + fuel = maxRetries + 1 → s.calls = attempt →
      runAttempts env buildResp budget maxRetries fuel attempt s =
        (.ok (docs maxRetries, "over_budget"),
          ⟨s.cache, maxRetries + 1, s.used, s.optCount⟩) := by
  intro fuel
  induction fuel with
  | zero =>
      intro attempt s h1
      exact absurd h1 (by norm_num)
  | succ fuel ih =>
      intro attempt s _ hatt hsum hcalls
      obtain ⟨cache, calls, used, optCount⟩ := s
      simp only at hcalls
      subst hcalls
      have hg : generate_itinerary (env calls) calls cache =
          ⟨.ok (docs calls), cache, 1, true⟩ := by
        rw [generate_itinerary_fresh _ calls cache (by omega),
          genFresh_parsed_ok (ht calls) (he calls) (hp calls) calls cache,
          if_neg (show ¬ calls = 0 by omega)]
      have hcond : ¬ (totals calls / budget * 100 < 75 ∧
          (⟨cache, calls, used, optCount⟩ : OrchState).used = false ∧
          calls < maxRetries) :=
        fun hc => not_low_util_of_invalid hb (hv calls) hc.1
      have hstep := attemptStep_no_opt env buildResp budget maxRetries calls
        ⟨cache, calls, used, optCount⟩ hg (hv calls) hcond
      by_cases hf0 : fuel = 0
      · subst hf0
        have hmax : calls = maxRetries := by omega
        have hstep2 : attemptStep env buildResp budget maxRetries calls
            ⟨cache, calls, used, optCount⟩ =
            .done (.ok (docs maxRetries, "over_budget"))
              ⟨cache, maxRetries + 1, used, optCount⟩ := by
          rw [hstep, hmax]
          exact finishStep_ok_over hbr maxRetries _
        exact runAttempts_done env buildResp budget maxRetries 0 hstep2
      · have hstep2 : attemptStep env buildResp budget maxRetries calls
            ⟨cache, calls, used, optCount⟩ =
            .next ⟨cache, calls + 1, used, optCount⟩ := by
          rw [hstep]
          exact finishStep_next (show calls ≠ maxRetries by omega) _
        rw [runAttempts_next env buildResp budget maxRetries fuel hstep2]
        exact ih (calls + 1) ⟨cache, calls + 1, used, optCount⟩
          (by omega) (by omega) (by omega) rfl

/-- C2 counterexample: the claim says exhausting retries over budget
"returns normally ... and does not raise".  But the return site runs
`TravelResponse(**itinerary_data)` first, and a pydantic
`ValidationError` raised there is a `ValueError` whose message mentions
neither JSON nor parse, so on the final attempt the `except ValueError`
arm re-raises it: with `maxRetries = 0`, one over-budget document and a
failing construction, the call raises instead of returning
over_budget. -/
theorem c2_exhausted_retries_counterexample :
    validateBudget defaultTolerance (docWithBreakdown 1200 0 0 0 0) 1000 =
      .ok (false, 1200, ⟨1200, 0, 0, 0, 0⟩) ∧
    strContains "1 validation error for TravelResponse: destination Field required"
      "JSON" = false ∧
    strContains
      (pyLower "1 validation error for TravelResponse: destination Field required")
      "parse" = false ∧
    generate_with_budget_constraint
        (fun _ => ⟨"ok\x7d", .ok (docWithBreakdown 1200 0 0 0 0)⟩)
        (fun _ =>
          .error "1 validation error for TravelResponse: destination Field required")
        1000 0 =
      (.error (.valueError
          "1 validation error for TravelResponse: destination Field required"),
        ⟨some (docWithBreakdown 1200 0 0 0 0), 1, false, 0⟩) := by
  have hval : validateBudget defaultTolerance (docWithBreakdown 1200 0 0 0 0) 1000 =
      .ok (false, 1200, ⟨1200, 0, 0, 0, 0⟩) := by
    rw [validateBudget_docWithBreakdown]
    norm_num [defaultTolerance]
  refine ⟨hval, by decide, by decide, ?_⟩
  have hgen : generate_itinerary
      ((fun _ => (⟨"ok\x7d", .ok (docWithBreakdown 1200 0 0 0 0)⟩ : ModelResponse))
        ((⟨none, 0, false, 0⟩ : OrchState).calls))
      0 ((⟨none, 0, false, 0⟩ : OrchState).cache) =
      ⟨.ok (docWithBreakdown 1200 0 0 0 0), some (docWithBreakdown 1200 0 0 0 0),
        1, true⟩ := by
    rw [generate_itinerary_miss,
      genFresh_parsed_ok (by decide) (by decide) rfl 0 none]
    rfl
  have hstep := attemptStep_no_opt
    (fun _ => (⟨"ok\x7d", .ok (docWithBreakdown 1200 0 0 0 0)⟩ : ModelResponse))
    (fun _ =>
      .error "1 validation error for TravelResponse: destination Field required")
    1000 0 0 ⟨none, 0, false, 0⟩ hgen hval (by norm_num)
  have hnr : errRetries
      (.valueError "1 validation error for TravelResponse: destination Field required")
      0 0 = false := by
    simp [errRetries]
  have hstep2 : attemptStep
      (fun _ => (⟨"ok\x7d", .ok (docWithBreakdown 1200 0 0 0 0)⟩ : ModelResponse))
      (fun _ =>
        .error "1 validation error for TravelResponse: destination Field required")
      1000 0 0 ⟨none, 0, false, 0⟩ =
      .done (.error (.valueError
          "1 validation error for TravelResponse: destination Field required"))
        ⟨some (docWithBreakdown 1200 0 0 0 0), 1, false, 0⟩ := by
    rw [hstep]
    exact finishStep_err_over rfl 0 _ hnr
  unfold generate_with_budget_constraint
  exact runAttempts_done
    (fun _ => (⟨"ok\x7d", .ok (docWithBreakdown 1200 0 0 0 0)⟩ : ModelResponse))
    (fun _ =>
      .error "1 validation error for TravelResponse: destination Field required")
    1000 0 0 hstep2

/-- C2 (amended): when every attempt parses successfully but every
document fails budget validation, AND the `TravelResponse` construction
of the final document succeeds, the call never raises: it runs all
`maxRetries + 1` attempts (one API call each — attempt 0 caches its
document, later attempts bypass the cache), never triggers the
optimization retry, and returns the LAST generated document tagged
`over_budget`.  (Without the construction proviso the claim is false —
a pydantic `ValidationError` at the return site is re-raised; see the
counterexample.) -/
theorem c2_exhausted_retries :
    ∀ (env : Nat → ModelResponse) (buildResp : ItineraryData → Except String Unit)
      (budget : ℚ) (maxRetries : Nat)
      (docs : Nat → ItineraryData) (totals : Nat → ℚ) (bds : Nat → Breakdown),
      0 < budget →
      (∀ i, pyStrip (env i).text ≠ "") →
      (∀ i, pyEndsWith (pyStrip (env i).text) "\x7d" = true) →
      (∀ i, (env i).parsed = .ok (docs i)) →
      (∀ i, validateBudget defaultTolerance (docs i) budget =
        .ok (false, totals i, bds i)) →
      buildResp (docs maxRetries) = .ok () →
      generate_with_budget_constraint env buildResp budget maxRetries =
        (.ok (docs maxRetries, "over_budget"),
          ⟨some (docs 0), maxRetries + 1, false, 0⟩) := by
  intro env buildResp budget maxRetries docs totals bds hb ht he hp hv hbr
  have hg0 : generate_itinerary (env 0) 0 none =
      ⟨.ok (docs 0), some (docs 0), 1, true⟩ := by
    rw [generate_itinerary_miss, genFresh_parsed_ok (ht 0) (he 0) (hp 0) 0 none]
    rfl
  have hcond0 : ¬ (totals 0 / budget * 100 < 75 ∧
      (⟨none, 0, false, 0⟩ : OrchState).used = false ∧ 0 < maxRetries) :=
    fun hc => not_low_util_of_invalid hb (hv 0) hc.1
  have hstep0 := attemptStep_no_opt env buildResp budget maxRetries 0
    ⟨none, 0, false, 0⟩ hg0 (hv 0) hcond0
  unfold generate_with_budget_constraint
  cases maxRetries with
  | zero =>
      have hstep2 : attemptStep env buildResp budget 0 0 ⟨none, 0, false, 0⟩ =
          .done (.ok (docs 0, "over_budget")) ⟨some (docs 0), 1, false, 0⟩ := by
        rw [hstep0]
        exact finishStep_ok_over hbr 0 _
      exact runAttempts_done env buildResp budget 0 0 hstep2
  | succ m =>
      have hstep2 : attemptStep env buildResp budget (m + 1) 0 ⟨none, 0, false, 0⟩ =
          .next ⟨some (docs 0), 1, false, 0⟩ := by
        rw [hstep0]
        exact finishStep_next (show 0 ≠ m + 1 by omega) _
      rw [runAttempts_next env buildResp budget (m + 1) (m + 1) hstep2]
      exact c2_loop env buildResp budget (m + 1) docs totals bds hb ht he hp hv hbr
        (m + 1) 1 ⟨some (docs 0), 1, false, 0⟩ (by omega) (by omega) (by omega) rfl

/-- Witness for C2 (amended): maxRetries = 2, every attempt costing
1200 against budget 1000, construction succeeding — the call returns
normally on the 3rd attempt. -/
theorem c2_exhausted_retries_witness :
    generate_with_budget_constraint
        (fun _ => ⟨"ok\x7d", .ok (docWithBreakdown 1200 0 0 0 0)⟩)
        (fun _ => .ok ()) 1000 2 =
      (.ok (docWithBreakdown 1200 0 0 0 0, "over_budget"),
        ⟨some (docWithBreakdown 1200 0 0 0 0), 3, false, 0⟩) := by
  exact c2_exhausted_retries
    (fun _ => ⟨"ok\x7d", .ok (docWithBreakdown 1200 0 0 0 0)⟩)
    (fun _ => .ok ())
    1000 2 (fun _ => docWithBreakdown 1200 0 0 0 0) (fun _ => 1200)
    (fun _ => ⟨1200, 0, 0, 0, 0⟩) (by norm_num)
    (fun _ => show pyStrip "ok\x7d" ≠ "" by decide)
    (fun _ => show pyEndsWith (pyStrip "ok\x7d") "\x7d" = true by decide)
    (fun _ => rfl)
    (fun _ => by rw [validateBudget_docWithBreakdown]; norm_num [defaultTolerance])
    rfl

end TravelPlanner
